import Mathlib

/-!
Shallow embedding of the ARTS model-adapter layer
(`core/models/{base,openai_like,anthropic,google,factory}.py`).

Messages are role-tagged strings; the three provider adapters translate a
generic conversation into their wire request, share one retry loop, and the
factory routes a model-name string to an adapter plus a credential read from
the environment.  Transport calls are modelled as functions from the attempt
index to `Except` outcomes; the environment is a partial map from variable
names to strings.
-/

namespace ARTS

/-- Roles of caller-facing messages (the `role` key of a message dict). -/
inductive Role where
  | system
  | user
  | assistant
deriving DecidableEq

/-- A message dict `{role: ..., content: ...}`. -/
structure Message where
  role : Role
  content : String
deriving DecidableEq

/-- The `response_format` dict; only the `"type"` key is ever consulted
(`response_format.get("type") == "json_object"`). -/
structure RespFormat where
  type : String
deriving DecidableEq

/-- Shared constant `MAX_RETRIES = 6` (all three adapters). -/
def MAX_RETRIES : Nat := 6

/-- Shared constant `REQUEST_DELAY = 1` (all three adapters). -/
def REQUEST_DELAY : Nat := 1

/-- Shared constant `MAX_TOKENS = 16384` (all three adapters). -/
def MAX_TOKENS : Nat := 16384

/-- The retry loop shared verbatim by the three adapters:
`for attempt in range(MAX_RETRIES): try: return body() except e:
if attempt == MAX_RETRIES - 1: raise e; time.sleep(REQUEST_DELAY)` followed by
a trailing `return ""`.  `body a` is the outcome of the try-block on attempt
`a`; the result pairs the returned value (or re-raised error) with the number
of `time.sleep` calls executed.  `n` is the number of loop iterations left
(`MAX_RETRIES - a`); if the loop falls through, the trailing `return ""` runs. -/
def retryLoop (body : Nat → Except ε String) : Nat → Nat → Except ε String × Nat
  | 0, _ => (.ok "", 0)
  | n + 1, attempt =>
    match body attempt with
    | .ok r => (.ok r, 0)
    | .error e =>
      if attempt = MAX_RETRIES - 1 then
        (.error e, 0)
      else
        let rest := retryLoop body n (attempt + 1)
        (rest.1, rest.2 + 1)

/-- Entry of the shared retry loop: attempts start at 0 with the full budget. -/
def runWithRetry (body : Nat → Except ε String) : Except ε String × Nat :=
  retryLoop body MAX_RETRIES 0

/-! ## OpenAI-protocol adapter (`openai_like.py`) -/

/-- The request transmitted by `OpenAILikeModel.call`:
`client.chat.completions.create(model=..., messages=..., temperature=...,
max_completion_tokens=MAX_TOKENS, response_format=...)`. -/
structure OpenAIRequest where
  model : String
  messages : List Message
  temperature : Rat
  max_completion_tokens : Nat
  response_format : Option RespFormat
deriving DecidableEq

/-- Request construction inside `OpenAILikeModel.call`: the conversation and
response format pass through unmodified, the token ceiling is `MAX_TOKENS`. -/
def OpenAILikeModel.buildRequest (model_name : String) (messages : List Message)
    (temperature : Rat) (response_format : Option RespFormat) : OpenAIRequest :=
  { model := model_name
    messages := messages
    temperature := temperature
    max_completion_tokens := MAX_TOKENS
    response_format := response_format }

/-- Parameter names of `OpenAILikeModel.call` beyond `self`, as declared:
`def call(self, messages, temperature=0.0, response_format=None)`. -/
def OpenAILikeModel.callParams : List String :=
  ["messages", "temperature", "response_format"]

/-- `OpenAILikeModel.call`: one transport attempt returns
`response.choices[0].message.content` or raises; the shared retry loop wraps
it.  `transport req a` is the outcome of attempt `a` for request `req`. -/
def OpenAILikeModel.call (transport : OpenAIRequest → Nat → Except ε String)
    (model_name : String) (messages : List Message) (temperature : Rat)
    (response_format : Option RespFormat) : Except ε String × Nat :=
  runWithRetry
    (transport (OpenAILikeModel.buildRequest model_name messages temperature response_format))

/-! ## Claude adapter (`anthropic.py`) -/

/-- Step 1 of `AnthropicModel.call`: `if messages and messages[0]['role'] ==
'system'` the head content becomes `system_prompt` and `active_messages =
messages[1:]`; otherwise `system_prompt = ""` and `active_messages = messages`. -/
def systemExtract (messages : List Message) : String × List Message :=
  match messages with
  | ⟨Role.system, c⟩ :: rest => (c, rest)
  | _ => ("", messages)

/-- `should_prefill = (response_format and response_format.get("type") ==
"json_object")`. -/
def shouldPrefill (response_format : Option RespFormat) : Bool :=
  match response_format with
  | none => false
  | some rf => rf.type == "json_object"

/-- The synthetic prefill turn `{"role": "assistant", "content": "\x7b"}`. -/
def prefillMessage : Message :=
  ⟨Role.assistant, "\x7b"⟩

/-- Step 2 of `AnthropicModel.call`: `messages_to_send` is a copy of
`active_messages`, with the prefill turn appended when `should_prefill`. -/
def AnthropicModel.messagesToSend (messages : List Message)
    (response_format : Option RespFormat) : List Message :=
  let active := (systemExtract messages).2
  if shouldPrefill response_format then active ++ [prefillMessage] else active

/-- The request transmitted by `AnthropicModel.call`:
`client.messages.stream(model=..., system=..., messages=..., temperature=...,
max_tokens=MAX_TOKENS)`. -/
structure AnthropicRequest where
  model : String
  system : String
  messages : List Message
  temperature : Rat
  max_tokens : Nat
deriving DecidableEq

/-- Full request construction of `AnthropicModel.call`. -/
def AnthropicModel.buildRequest (model_name : String) (messages : List Message)
    (temperature : Rat) (response_format : Option RespFormat) : AnthropicRequest :=
  { model := model_name
    system := (systemExtract messages).1
    messages := AnthropicModel.messagesToSend messages response_format
    temperature := temperature
    max_tokens := MAX_TOKENS }

/-- Step 4 of `AnthropicModel.call`: `if should_prefill: raw_content = "\x7b" +
raw_content` before returning. -/
def AnthropicModel.postProcess (response_format : Option RespFormat)
    (raw_content : String) : String :=
  if shouldPrefill response_format then "\x7b" ++ raw_content else raw_content

/-- Parameter names of `AnthropicModel.call` beyond `self`, as declared:
`def call(self, messages, temperature=0.0, response_format=None)`. -/
def AnthropicModel.callParams : List String :=
  ["messages", "temperature", "response_format"]

/-- `AnthropicModel.call`: each try-block attempt streams the request to the
provider (`transport req a` is the aggregated `final_message.content[0].text`
of attempt `a`, or the raised error) then re-prepends the prefill brace; the
shared retry loop wraps the whole try-block. -/
def AnthropicModel.call (transport : AnthropicRequest → Nat → Except ε String)
    (model_name : String) (messages : List Message) (temperature : Rat)
    (response_format : Option RespFormat) : Except ε String × Nat :=
  runWithRetry fun a =>
    (transport (AnthropicModel.buildRequest model_name messages temperature response_format) a).map
      (AnthropicModel.postProcess response_format)

/-! ## Gemini adapter (`google.py`) -/

/-- A Gemini-format message dict `{'role': ..., 'parts': [...]}`; the role is
the literal string `'user'` or `'model'`. -/
structure GeminiMessage where
  role : String
  parts : List String
deriving DecidableEq

/-- The fixed acknowledgment injected after a leading system prompt. -/
def GeminiModel.ack : String := "OK, I will strictly follow these directives."

/-- Per-message role mapping of the conversion loop:
`role = 'user' if msg['role'] == 'user' else 'model'`. -/
def GeminiModel.mapRole (r : Role) : String :=
  if r = Role.user then "user" else "model"

/-- Step 1 of `GeminiModel.call`: if the first message has role `system`, a
synthetic `user` turn with its content plus a synthetic `model` acknowledgment
replace it, then the remaining conversation is converted; otherwise the whole
conversation is converted message by message. -/
def GeminiModel.convert (messages : List Message) : List GeminiMessage :=
  match messages with
  | ⟨Role.system, c⟩ :: rest =>
    ⟨"user", [c]⟩ :: ⟨"model", [GeminiModel.ack]⟩ ::
      rest.map (fun m => ⟨GeminiModel.mapRole m.role, [m.content]⟩)
  | _ => messages.map (fun m => ⟨GeminiModel.mapRole m.role, [m.content]⟩)

/-- The `genai.types.GenerationConfig(max_output_tokens=..., temperature=...)`
value. -/
structure GenerationConfig where
  max_output_tokens : Nat
  temperature : Rat
deriving DecidableEq

/-- The request transmitted by `GeminiModel.call`:
`self.model.generate_content(gemini_messages, generation_config=...)`. -/
structure GeminiRequest where
  contents : List GeminiMessage
  generation_config : GenerationConfig
deriving DecidableEq

/-- Full request construction of `GeminiModel.call`: converted messages plus a
generation config with the fixed token ceiling. -/
def GeminiModel.buildRequest (messages : List Message) (temperature : Rat) :
    GeminiRequest :=
  { contents := GeminiModel.convert messages
    generation_config := { max_output_tokens := MAX_TOKENS, temperature := temperature } }

/-- Parameter names of `GeminiModel.call` beyond `self`, as declared:
`def call(self, messages, temperature=0.0)` — there is no `response_format`
parameter and no `**kwargs`. -/
def GeminiModel.callParams : List String :=
  ["messages", "temperature"]

/-- Python call-binding error raised when a keyword argument does not match any
declared parameter. -/
inductive PyCallError where
  | typeError
deriving DecidableEq

/-- Python keyword-call semantics for `GeminiModel.call`: `extraKeywords` are
keyword-argument names supplied beyond `messages` and `temperature`; any name
outside the declared parameter list makes the call raise `TypeError` before a
request is built. -/
def GeminiModel.callKw (messages : List Message) (temperature : Rat)
    (extraKeywords : List String) : Except PyCallError GeminiRequest :=
  if extraKeywords.all (fun k => GeminiModel.callParams.contains k) then
    .ok (GeminiModel.buildRequest messages temperature)
  else
    .error .typeError

/-- `GeminiModel.call`: the shared retry loop around
`self.model.generate_content(...)`, returning `response.text`. -/
def GeminiModel.call (transport : GeminiRequest → Nat → Except ε String)
    (messages : List Message) (temperature : Rat) : Except ε String × Nat :=
  runWithRetry (transport (GeminiModel.buildRequest messages temperature))

/-! ## Factory (`factory.py`) -/

/-- The adapter instance returned by `ModelFactory.create`, with the
construction arguments it received. -/
inductive ModelChoice where
  | anthropicModel (model_name api_key : String)
  | geminiModel (model_name api_key : String)
  | openAILikeModel (model_name api_key : String) (base_url : Option String)
deriving DecidableEq

/-- Python substring containment `sub in s`. -/
def strContains (s sub : String) : Bool :=
  decide (sub.toList <:+: s.toList)

/-- Python `str.lower()`, character by character (ASCII suffices here). -/
def strToLower (s : String) : String :=
  ⟨s.data.map Char.toLower⟩

/-- Credential lookup of the factory: `api_key = os.getenv(key)` followed by
`if not api_key: raise ValueError(...)` — an unset variable and an empty string
both fail, with a message naming the key. -/
def getenvChecked (env : String → Option String) (key : String) :
    Except String String :=
  match env key with
  | none => .error ("Environment variable \x27" ++ key ++ "\x27 is not set.")
  | some v =>
    if v = "" then .error ("Environment variable \x27" ++ key ++ "\x27 is not set.")
    else .ok v

/-- `ModelFactory.create`: substring matching on the lower-cased model name in
fixed priority order (claude, gemini, deepseek, default OpenAI), each branch
resolving its credential before constructing the adapter. -/
def ModelFactory.create (env : String → Option String) (model_name : String) :
    Except String ModelChoice :=
  let model_name_lower := strToLower model_name
  if strContains model_name_lower "claude" then
    (getenvChecked env "ANTHROPIC_API_KEY").map
      (fun k => .anthropicModel model_name k)
  else if strContains model_name_lower "gemini" then
    (getenvChecked env "GOOGLE_API_KEY").map
      (fun k => .geminiModel model_name k)
  else if strContains model_name_lower "deepseek" then
    (getenvChecked env "DEEPSEEK_API_KEY").map
      (fun k => .openAILikeModel model_name k (some "https://api.deepseek.com"))
  else
    (getenvChecked env "OPENAI_API_KEY").map
      (fun k => .openAILikeModel model_name k none)

/-! ## Object-store model of the message-preparation steps

Python message dicts are mutable objects; the caller's conversation is a list
of references into a heap.  To state that the adapters never mutate the
caller's objects, the preparation steps are re-embedded over an explicit
store: object identifiers index a store of values, `msg.copy()` and dict
literals allocate fresh identifiers, and no operation of the embedded code
ever writes to an existing identifier. -/

/-- A heap of objects of type `α`: identifiers below `next` are allocated. -/
structure Store (α : Type) where
  mem : Nat → α
  next : Nat

/-- Allocate a fresh object holding `v`, returning the new store and the fresh
identifier. -/
def Store.alloc (σ : Store α) (v : α) : Store α × Nat :=
  (⟨fun i => if i = σ.next then v else σ.mem i, σ.next + 1⟩, σ.next)

/-- Allocate one fresh object per value, left to right. -/
def Store.allocList (σ : Store α) : List α → Store α × List Nat
  | [] => (σ, [])
  | v :: vs =>
    let p := σ.alloc v
    let q := p.1.allocList vs
    (q.1, p.2 :: q.2)

/-- Reference-level `active_messages` of `AnthropicModel.call`: `messages[1:]`
builds a new list sharing the old references; the caller's list is untouched. -/
def AnthropicModel.activeRefs (σ : Store Message) (msgs : List Nat) : List Nat :=
  match msgs with
  | m0 :: rest => if (σ.mem m0).role = Role.system then rest else msgs
  | [] => msgs

/-- Reference-level `AnthropicModel.call` message preparation: the caller's
conversation is the identifier list `msgs` into `σ`.
`[msg.copy() for msg in active_messages]` allocates fresh copies, the prefill
turn is a fresh dict literal, and the caller's objects are never written. -/
def AnthropicModel.prepareRefs (σ : Store Message) (msgs : List Nat)
    (response_format : Option RespFormat) : Store Message × List Nat :=
  let copied := σ.allocList ((AnthropicModel.activeRefs σ msgs).map σ.mem)
  if shouldPrefill response_format then
    let p := copied.1.alloc prefillMessage
    (p.1, copied.2 ++ [p.2])
  else
    copied

/-- Reference-level `GeminiModel.call` message conversion: the code only reads
the caller's objects and builds fresh Gemini-format dicts (in a separate store
of `GeminiMessage` objects); the caller's store is returned as the code leaves
it — untouched. -/
def GeminiModel.prepareRefs (σ : Store Message) (msgs : List Nat)
    (τ : Store GeminiMessage) : Store Message × Store GeminiMessage × List Nat :=
  let q := τ.allocList (GeminiModel.convert (msgs.map σ.mem))
  (σ, q.1, q.2)

/-- Reference-level `OpenAILikeModel.call` message handling: the caller's list
is passed through to the transport as-is, with no restructuring and no writes. -/
def OpenAILikeModel.prepareRefs (σ : Store Message) (msgs : List Nat) :
    Store Message × List Nat :=
  (σ, msgs)

/-! ## Concrete test fixtures -/

/-- Transport stub failing the first five attempts and succeeding on the
sixth. -/
def tRecover : Nat → Except String String :=
  fun i => if i < 5 then .error "boom" else .ok "done"

/-- Transport stub failing all six attempts, the last with a distinct error. -/
def tExhaust : Nat → Except String String :=
  fun i => .error (if i = 5 then "sixth" else "early")

/-- A fully-populated environment, one distinct credential per provider
family. -/
def envDemo : String → Option String := fun v =>
  if v = "ANTHROPIC_API_KEY" then some "ka"
  else if v = "GOOGLE_API_KEY" then some "kg"
  else if v = "DEEPSEEK_API_KEY" then some "kd"
  else if v = "OPENAI_API_KEY" then some "ko"
  else none

/-- The empty environment: no credential is set. -/
def envEmpty : String → Option String := fun _ => none

/-- A two-object store holding a system and a user message. -/
def storeDemo : Store Message :=
  ⟨fun i => if i = 0 then ⟨Role.system, "s"⟩ else ⟨Role.user, "u"⟩, 2⟩

/-- An empty store of Gemini-format messages. -/
def gstoreEmpty : Store GeminiMessage :=
  ⟨fun _ => ⟨"user", []⟩, 0⟩

/-! ## Retry-loop lemmas -/

/-- If the first `k` attempts raise and attempt `k` (still inside the budget)
succeeds, the loop returns that success after `k` sleeps. -/
theorem retryLoop_ok {ε : Type} (body : Nat → Except ε String) :
    ∀ (k n a : Nat) (r : String), a + n = MAX_RETRIES → k < n →
      (∀ i, i < k → ∃ e, body (a + i) = .error e) →
      body (a + k) = .ok r →
      retryLoop body n a = (.ok r, k) := by
  intro k
  induction k with
  | zero =>
    intro n a r htot hk hfail hok
    obtain ⟨m, rfl⟩ : ∃ m, n = m + 1 := ⟨n - 1, by omega⟩
    rw [show a + 0 = a from rfl] at hok
    simp [retryLoop, hok]
  | succ k ih =>
    intro n a r htot hk hfail hok
    obtain ⟨m, rfl⟩ : ∃ m, n = m + 1 := ⟨n - 1, by omega⟩
    obtain ⟨e0, he0⟩ := hfail 0 (Nat.succ_pos k)
    rw [show a + 0 = a from rfl] at he0
    have ha : ¬ (a = MAX_RETRIES - 1) := by
      simp only [MAX_RETRIES] at htot ⊢
      omega
    have hrec : retryLoop body m (a + 1) = (.ok r, k) := by
      apply ih m (a + 1) r (by omega) (by omega)
      · intro i hi
        obtain ⟨e, he⟩ := hfail (i + 1) (by omega)
        exact ⟨e, by rw [show a + 1 + i = a + (i + 1) from by omega]; exact he⟩
      · rw [show a + 1 + k = a + (k + 1) from by omega]
        exact hok
    simp [retryLoop, he0, ha, hrec]

/-- If every attempt in the remaining budget raises, the loop re-raises the
error of the final attempt after one sleep per non-final attempt. -/
theorem retryLoop_err {ε : Type} (body : Nat → Except ε String) :
    ∀ (n a : Nat) (e : ε), a + n = MAX_RETRIES → 0 < n →
      (∀ i, i < n → ∃ e', body (a + i) = .error e') →
      body (a + (n - 1)) = .error e →
      retryLoop body n a = (.error e, n - 1) := by
  intro n
  induction n with
  | zero =>
    intro a e _ h0
    omega
  | succ m ih =>
    intro a e htot _ hfail hlast
    by_cases hm : m = 0
    · subst hm
      have ha : a = MAX_RETRIES - 1 := by
        simp only [MAX_RETRIES] at htot ⊢
        omega
      rw [show a + (1 - 1) = a from by omega] at hlast
      subst ha
      simp [retryLoop, hlast]
    · obtain ⟨e0, he0⟩ := hfail 0 (Nat.succ_pos m)
      rw [show a + 0 = a from rfl] at he0
      have ha : ¬ (a = MAX_RETRIES - 1) := by
        simp only [MAX_RETRIES] at htot ⊢
        omega
      have hrec : retryLoop body m (a + 1) = (.error e, m - 1) := by
        apply ih (a + 1) e (by omega) (by omega)
        · intro i hi
          obtain ⟨e', he'⟩ := hfail (i + 1) (by omega)
          exact ⟨e', by rw [show a + 1 + i = a + (i + 1) from by omega]; exact he'⟩
        · rw [show a + 1 + (m - 1) = a + (m + 1 - 1) from by omega]
          exact hlast
      have hm1 : m - 1 + 1 = m := by omega
      simp [retryLoop, he0, ha, hrec, hm1]

/-- C1: the retry loop shared by the three adapters' call operations treats
every transport error alike: if some attempt `k < 6` succeeds after `k`
failures, its result is returned with exactly `k` fixed-delay sleeps and no
error; if all 6 attempts fail, the 6th error is re-raised unchanged after
exactly 5 sleeps, and no default empty result is returned.  The final
conjuncts identify each adapter's call with the shared loop around its
transport body. -/
theorem retry_policy_spec {ε : Type} :
    (∀ (t : Nat → Except ε String) (k : Nat) (r : String), k < MAX_RETRIES →
      (∀ i, i < k → ∃ e, t i = .error e) → t k = .ok r →
      runWithRetry t = (.ok r, k)) ∧
    (∀ (t : Nat → Except ε String) (e : ε),
      (∀ i, i < MAX_RETRIES → ∃ e', t i = .error e') →
      t (MAX_RETRIES - 1) = .error e →
      runWithRetry t = (.error e, MAX_RETRIES - 1)) ∧
    (∀ (tr : OpenAIRequest → Nat → Except ε String) (mn : String)
        (msgs : List Message) (temp : Rat) (rf : Option RespFormat),
      OpenAILikeModel.call tr mn msgs temp rf =
        runWithRetry (tr (OpenAILikeModel.buildRequest mn msgs temp rf))) ∧
    (∀ (tr : AnthropicRequest → Nat → Except ε String) (mn : String)
        (msgs : List Message) (temp : Rat) (rf : Option RespFormat),
      AnthropicModel.call tr mn msgs temp rf =
        runWithRetry (fun a =>
          (tr (AnthropicModel.buildRequest mn msgs temp rf) a).map
            (AnthropicModel.postProcess rf))) ∧
    (∀ (tr : GeminiRequest → Nat → Except ε String) (msgs : List Message)
        (temp : Rat),
      GeminiModel.call tr msgs temp =
        runWithRetry (tr (GeminiModel.buildRequest msgs temp))) := by
  refine ⟨?_, ?_, ?_, ?_, ?_⟩
  · intro t k r hk hfail hok
    exact retryLoop_ok t k MAX_RETRIES 0 r (by omega) hk
      (by simpa using hfail) (by simpa using hok)
  · intro t e hfail hlast
    exact retryLoop_err t MAX_RETRIES 0 e (by omega) (by simp [MAX_RETRIES])
      (by simpa using hfail) (by simpa using hlast)
  · intro tr mn msgs temp rf
    rfl
  · intro tr mn msgs temp rf
    rfl
  · intro tr msgs temp
    rfl

/-- Closed instance of C1: the recovering stub returns the success after 5
sleeps; the exhausting stub re-raises the sixth error after 5 sleeps. -/
theorem retry_policy_spec_witness :
    runWithRetry tRecover = (.ok "done", 5) ∧
    runWithRetry tExhaust = (.error "sixth", 5) := by
  constructor
  · exact (@retry_policy_spec String).1 tRecover 5 "done" (by decide)
      (fun i hi => ⟨"boom", by simp [tRecover, hi]⟩) (by simp [tRecover])
  · have h := (@retry_policy_spec String).2.1 tExhaust "sixth"
      (fun i _ => ⟨if i = 5 then "sixth" else "early", rfl⟩)
      (by simp [tExhaust, MAX_RETRIES])
    simpa [MAX_RETRIES] using h

/-- C2 counterexample: `GeminiModel.call` declares no `response_format`
parameter (`def call(self, messages, temperature=0.0)`), so the claim that
the parameter is accepted fails — an invocation passing that keyword raises
`TypeError` and transmits no request at all. -/
theorem gemini_response_format_cex :
    GeminiModel.callParams.contains "response_format" = false ∧
    GeminiModel.callKw [] 0 ["response_format"] = .error .typeError := by
  exact ⟨rfl, rfl⟩

/-- C2 (amended): the Gemini adapter has no response-format path at all — its
call signature rejects the keyword with `TypeError`, and every request it does
transmit is built from the messages and temperature alone, so requesting JSON
output cannot change (or even reach) the request sent. -/
theorem gemini_json_gap (msgs : List Message) (temp : Rat) :
    GeminiModel.callKw msgs temp ["response_format"] = .error .typeError ∧
    GeminiModel.callKw msgs temp [] = .ok (GeminiModel.buildRequest msgs temp) := by
  exact ⟨rfl, rfl⟩

/-- C3: when `response_format` has type `json_object`, exactly the single
synthetic assistant turn holding one opening brace is appended as the last
element of the sent array, and the provider's text comes back with that brace
re-prepended, hence always starts with it; otherwise nothing is appended and
the text is returned unmodified. -/
theorem claude_prefill_spec (msgs : List Message) (pt : String) :
    prefillMessage = ⟨Role.assistant, "\x7b"⟩ ∧
    shouldPrefill (some ⟨"json_object"⟩) = true ∧
    shouldPrefill none = false ∧
    (∀ rf, shouldPrefill rf = true →
      AnthropicModel.messagesToSend msgs rf =
        (systemExtract msgs).2 ++ [prefillMessage] ∧
      AnthropicModel.postProcess rf pt = "\x7b" ++ pt ∧
      (AnthropicModel.postProcess rf pt).data.head? = some '\x7b') ∧
    (∀ rf, shouldPrefill rf = false →
      AnthropicModel.messagesToSend msgs rf = (systemExtract msgs).2 ∧
      AnthropicModel.postProcess rf pt = pt) ∧
    (∀ t, ¬ (t = "json_object") → shouldPrefill (some ⟨t⟩) = false) := by
  refine ⟨rfl, rfl, rfl, ?_, ?_, ?_⟩
  · intro rf h
    refine ⟨?_, ?_, ?_⟩
    · simp [AnthropicModel.messagesToSend, h]
    · simp [AnthropicModel.postProcess, h]
    · simp [AnthropicModel.postProcess, h, String.data_append]
  · intro rf h
    constructor
    · simp [AnthropicModel.messagesToSend, h]
    · simp [AnthropicModel.postProcess, h]
  · intro t ht
    simp [shouldPrefill, ht]

/-- Closed instance of C3 at a concrete conversation and provider reply. -/
theorem claude_prefill_spec_witness :
    AnthropicModel.messagesToSend [⟨Role.system, "s"⟩, ⟨Role.user, "u"⟩]
        (some ⟨"json_object"⟩) = [⟨Role.user, "u"⟩, prefillMessage] ∧
    AnthropicModel.postProcess (some ⟨"json_object"⟩) "x" = "\x7bx" ∧
    AnthropicModel.messagesToSend [⟨Role.user, "u"⟩] none = [⟨Role.user, "u"⟩] := by
  have h1 := (claude_prefill_spec [⟨Role.system, "s"⟩, ⟨Role.user, "u"⟩] "x").2.2.2.1
    (some ⟨"json_object"⟩) rfl
  have h2 := (claude_prefill_spec [⟨Role.user, "u"⟩] "x").2.2.2.2.1 none rfl
  refine ⟨?_, ?_, ?_⟩
  · simpa [systemExtract] using h1.1
  · rw [h1.2.1]
    decide
  · simpa [systemExtract] using h2.1

/-- C4: system-extraction round-trip at the default response format: a leading
system message's content becomes the top-level system field and is excluded
from the sent array, which is exactly the remaining messages; without a
leading system message the field is empty and the conversation is sent
unchanged. -/
theorem claude_system_roundtrip (mn c : String) (rest msgs : List Message)
    (temp : Rat) :
    systemExtract (⟨Role.system, c⟩ :: rest) = (c, rest) ∧
    (AnthropicModel.buildRequest mn (⟨Role.system, c⟩ :: rest) temp none).system = c ∧
    (AnthropicModel.buildRequest mn (⟨Role.system, c⟩ :: rest) temp none).messages = rest ∧
    ((∀ m ∈ msgs.head?, ¬ (m.role = Role.system)) →
      systemExtract msgs = ("", msgs) ∧
      (AnthropicModel.buildRequest mn msgs temp none).system = "" ∧
      (AnthropicModel.buildRequest mn msgs temp none).messages = msgs) := by
  refine ⟨rfl, rfl, ?_, ?_⟩
  · simp [AnthropicModel.buildRequest, AnthropicModel.messagesToSend, shouldPrefill,
      systemExtract]
  · intro h
    have hx : systemExtract msgs = ("", msgs) := by
      match msgs with
      | [] => rfl
      | ⟨r, c0⟩ :: rest0 =>
        cases r with
        | system => exact absurd (h _ rfl) (by simp)
        | user => rfl
        | assistant => rfl
    refine ⟨hx, ?_, ?_⟩ <;>
      simp [AnthropicModel.buildRequest, AnthropicModel.messagesToSend, shouldPrefill, hx]

/-- Closed instance of C4 at a concrete conversation with and without a
leading system message. -/
theorem claude_system_roundtrip_witness :
    systemExtract [⟨Role.system, "s"⟩, ⟨Role.user, "u"⟩] = ("s", [⟨Role.user, "u"⟩]) ∧
    systemExtract [⟨Role.user, "u"⟩] = ("", [⟨Role.user, "u"⟩]) := by
  constructor
  · exact (claude_system_roundtrip "m" "s" [⟨Role.user, "u"⟩] [] 0).1
  · exact ((claude_system_roundtrip "m" "s" [] [⟨Role.user, "u"⟩] 0).2.2.2 (by simp)).1

/-- C5: Gemini role remap: a leading system message is replaced by a synthetic
`user` turn holding its content plus a synthetic `model` acknowledgment turn,
followed by the rest of the conversation with `user` kept and every non-user
role (assistant included) mapped to `model`; with no leading system message
the whole conversation maps role-by-role with no injected turns. -/
theorem gemini_role_remap (c : String) (rest msgs : List Message) (temp : Rat) :
    (GeminiModel.buildRequest (⟨Role.system, c⟩ :: rest) temp).contents =
      ⟨"user", [c]⟩ :: ⟨"model", [GeminiModel.ack]⟩ ::
        rest.map (fun m => ⟨GeminiModel.mapRole m.role, [m.content]⟩) ∧
    GeminiModel.mapRole Role.user = "user" ∧
    GeminiModel.mapRole Role.assistant = "model" ∧
    GeminiModel.mapRole Role.system = "model" ∧
    ((∀ m ∈ msgs.head?, ¬ (m.role = Role.system)) →
      (GeminiModel.buildRequest msgs temp).contents =
        msgs.map (fun m => ⟨GeminiModel.mapRole m.role, [m.content]⟩)) := by
  refine ⟨rfl, rfl, rfl, rfl, ?_⟩
  intro h
  match msgs with
  | [] => rfl
  | ⟨r, c0⟩ :: rest0 =>
    cases r with
    | system => exact absurd (h _ rfl) (by simp)
    | user => rfl
    | assistant => rfl

/-- Closed instance of C5 at a concrete conversation with and without a
leading system message. -/
theorem gemini_role_remap_witness :
    (GeminiModel.buildRequest
        [⟨Role.system, "s"⟩, ⟨Role.user, "u"⟩, ⟨Role.assistant, "a"⟩] 0).contents =
      [⟨"user", ["s"]⟩, ⟨"model", [GeminiModel.ack]⟩, ⟨"user", ["u"]⟩,
        ⟨"model", ["a"]⟩] ∧
    (GeminiModel.buildRequest [⟨Role.user, "u"⟩] 0).contents = [⟨"user", ["u"]⟩] := by
  constructor
  · have h := (gemini_role_remap "s" [⟨Role.user, "u"⟩, ⟨Role.assistant, "a"⟩] [] 0).1
    simpa [GeminiModel.mapRole] using h
  · have h := (gemini_role_remap "s" [] [⟨Role.user, "u"⟩] 0).2.2.2.2 (by simp)
    simpa [GeminiModel.mapRole] using h

/-- C6: factory routing is substring-based on the lower-cased name, first
match winning in the fixed order claude, gemini, deepseek, default OpenAI;
each matched branch carries its family's credential, the deepseek branch the
DeepSeek base URL and the default branch no override.  The closed conjuncts
resolve the four example names against a fully-populated environment. -/
theorem factory_routing (env : String → Option String) (name api_key : String) :
    (strContains (strToLower name) "claude" = true →
      getenvChecked env "ANTHROPIC_API_KEY" = .ok api_key →
      ModelFactory.create env name = .ok (.anthropicModel name api_key)) ∧
    (strContains (strToLower name) "claude" = false →
      strContains (strToLower name) "gemini" = true →
      getenvChecked env "GOOGLE_API_KEY" = .ok api_key →
      ModelFactory.create env name = .ok (.geminiModel name api_key)) ∧
    (strContains (strToLower name) "claude" = false →
      strContains (strToLower name) "gemini" = false →
      strContains (strToLower name) "deepseek" = true →
      getenvChecked env "DEEPSEEK_API_KEY" = .ok api_key →
      ModelFactory.create env name =
        .ok (.openAILikeModel name api_key (some "https://api.deepseek.com"))) ∧
    (strContains (strToLower name) "claude" = false →
      strContains (strToLower name) "gemini" = false →
      strContains (strToLower name) "deepseek" = false →
      getenvChecked env "OPENAI_API_KEY" = .ok api_key →
      ModelFactory.create env name = .ok (.openAILikeModel name api_key none)) ∧
    ModelFactory.create envDemo "claude-3-5-sonnet" =
      .ok (.anthropicModel "claude-3-5-sonnet" "ka") ∧
    ModelFactory.create envDemo "gemini-2.5-pro" =
      .ok (.geminiModel "gemini-2.5-pro" "kg") ∧
    ModelFactory.create envDemo "deepseek-chat" =
      .ok (.openAILikeModel "deepseek-chat" "kd" (some "https://api.deepseek.com")) ∧
    ModelFactory.create envDemo "gpt-4o" =
      .ok (.openAILikeModel "gpt-4o" "ko" none) := by
  refine ⟨?_, ?_, ?_, ?_, rfl, rfl, rfl, rfl⟩
  · intro h1 he
    simp [ModelFactory.create, Except.map, h1, he]
  · intro h1 h2 he
    simp [ModelFactory.create, Except.map, h1, h2, he]
  · intro h1 h2 h3 he
    simp [ModelFactory.create, Except.map, h1, h2, h3, he]
  · intro h1 h2 h3 he
    simp [ModelFactory.create, Except.map, h1, h2, h3, he]

/-- Closed instance of C6's general branches: an ambiguous name containing
both claude and gemini resolves by priority to the Claude adapter. -/
theorem factory_routing_witness :
    ModelFactory.create envDemo "claude-gemini-mix" =
      .ok (.anthropicModel "claude-gemini-mix" "ka") := by
  exact (factory_routing envDemo "claude-gemini-mix" "ka").1 (by decide) rfl

/-- C7: when the configuration variable of the matched provider family is
absent from the environment, `create` fails with an error whose message is
literally built around that exact key, and no adapter value is produced. -/
theorem factory_missing_credential (env : String → Option String) (name : String) :
    (strContains (strToLower name) "claude" = true →
      env "ANTHROPIC_API_KEY" = none →
      ModelFactory.create env name =
        .error ("Environment variable \x27" ++ "ANTHROPIC_API_KEY" ++
          "\x27 is not set.")) ∧
    (strContains (strToLower name) "claude" = false →
      strContains (strToLower name) "gemini" = true →
      env "GOOGLE_API_KEY" = none →
      ModelFactory.create env name =
        .error ("Environment variable \x27" ++ "GOOGLE_API_KEY" ++
          "\x27 is not set.")) ∧
    (strContains (strToLower name) "claude" = false →
      strContains (strToLower name) "gemini" = false →
      strContains (strToLower name) "deepseek" = true →
      env "DEEPSEEK_API_KEY" = none →
      ModelFactory.create env name =
        .error ("Environment variable \x27" ++ "DEEPSEEK_API_KEY" ++
          "\x27 is not set.")) ∧
    (strContains (strToLower name) "claude" = false →
      strContains (strToLower name) "gemini" = false →
      strContains (strToLower name) "deepseek" = false →
      env "OPENAI_API_KEY" = none →
      ModelFactory.create env name =
        .error ("Environment variable \x27" ++ "OPENAI_API_KEY" ++
          "\x27 is not set.")) := by
  refine ⟨?_, ?_, ?_, ?_⟩
  · intro h1 he
    simp [ModelFactory.create, getenvChecked, Except.map, h1, he]
  · intro h1 h2 he
    simp [ModelFactory.create, getenvChecked, Except.map, h1, h2, he]
  · intro h1 h2 h3 he
    simp [ModelFactory.create, getenvChecked, Except.map, h1, h2, h3, he]
  · intro h1 h2 h3 he
    simp [ModelFactory.create, getenvChecked, Except.map, h1, h2, h3, he]

/-- Closed instance of C7: with nothing set, a Claude name reports the
Anthropic key and a default name reports the OpenAI key. -/
theorem factory_missing_credential_witness :
    ModelFactory.create envEmpty "claude-3-5-sonnet" =
      .error ("Environment variable \x27" ++ "ANTHROPIC_API_KEY" ++
        "\x27 is not set.") ∧
    ModelFactory.create envEmpty "gpt-4o" =
      .error ("Environment variable \x27" ++ "OPENAI_API_KEY" ++
        "\x27 is not set.") := by
  constructor
  · exact (factory_missing_credential envEmpty "claude-3-5-sonnet").1 (by decide) rfl
  · exact (factory_missing_credential envEmpty "gpt-4o").2.2.2
      (by decide) (by decide) (by decide) rfl

/-- Allocation lemma: extending a store never touches existing objects, the
fresh identifiers stay in range, and reading them back yields the allocated
values. -/
theorem Store.allocList_spec {α : Type} (vs : List α) (σ : Store α) :
    σ.next ≤ (σ.allocList vs).1.next ∧
    (∀ i, i < σ.next → (σ.allocList vs).1.mem i = σ.mem i) ∧
    (∀ j ∈ (σ.allocList vs).2, j < (σ.allocList vs).1.next) ∧
    (σ.allocList vs).2.map (σ.allocList vs).1.mem = vs := by
  induction vs generalizing σ with
  | nil =>
    exact ⟨le_refl _, fun i _ => rfl, by simp [Store.allocList], by simp [Store.allocList]⟩
  | cons v vs ih =>
    obtain ⟨ih1, ih2, ih3, ih4⟩ := ih (σ.alloc v).1
    have hnext : (σ.alloc v).1.next = σ.next + 1 := rfl
    refine ⟨?_, ?_, ?_, ?_⟩
    · exact le_trans (Nat.le_succ σ.next) ih1
    · intro i hi
      have h1 : ((σ.alloc v).1.allocList vs).1.mem i = (σ.alloc v).1.mem i :=
        ih2 i (by omega)
      have h2 : (σ.alloc v).1.mem i = σ.mem i := if_neg (by omega)
      exact h1.trans h2
    · intro j hj
      rcases List.mem_cons.mp hj with h | h
      · subst h
        have hid : (σ.alloc v).2 = σ.next := rfl
        have hlt : σ.next < (σ.alloc v).1.next := by rw [hnext]; omega
        rw [hid]
        exact lt_of_lt_of_le hlt ih1
      · exact ih3 j h
    · have hid : (σ.alloc v).2 = σ.next := rfl
      have hhead : ((σ.alloc v).1.allocList vs).1.mem σ.next = v := by
        have h1 : ((σ.alloc v).1.allocList vs).1.mem σ.next = (σ.alloc v).1.mem σ.next :=
          ih2 σ.next (by omega)
        exact h1.trans (if_pos rfl)
      simpa [Store.allocList, hid, hhead] using ih4

/-- Case split of the system extraction on a non-empty conversation. -/
theorem systemExtract_cons (m : Message) (rest : List Message) :
    systemExtract (m :: rest) =
      if m.role = Role.system then (m.content, rest) else ("", m :: rest) := by
  obtain ⟨r, c⟩ := m
  cases r <;> simp [systemExtract]

/-- Reading the reference-level active list back yields the value-level
`active_messages`. -/
theorem activeRefs_map (σ : Store Message) (msgs : List Nat) :
    (AnthropicModel.activeRefs σ msgs).map σ.mem =
      (systemExtract (msgs.map σ.mem)).2 := by
  cases msgs with
  | nil => rfl
  | cons m0 rest =>
    by_cases h : (σ.mem m0).role = Role.system <;>
      simp [AnthropicModel.activeRefs, systemExtract_cons, h]

/-- C8: no adapter mutates the caller's conversation.  Every pre-existing
object of the store is left unchanged by each adapter's preparation step — in
particular every message the caller's list refers to — because the
provider-specific restructuring only reads the originals and allocates copies
and fresh dicts; and what the references sent denote agrees with the
value-level transformations. -/
theorem adapters_no_mutation (σ : Store Message) (msgs : List Nat)
    (rf : Option RespFormat) (τ : Store GeminiMessage) :
    (∀ i, i < σ.next →
      (AnthropicModel.prepareRefs σ msgs rf).1.mem i = σ.mem i) ∧
    (∀ j ∈ msgs, j < σ.next →
      (AnthropicModel.prepareRefs σ msgs rf).1.mem j = σ.mem j) ∧
    ((AnthropicModel.prepareRefs σ msgs rf).2.map
        (AnthropicModel.prepareRefs σ msgs rf).1.mem =
      AnthropicModel.messagesToSend (msgs.map σ.mem) rf) ∧
    ((GeminiModel.prepareRefs σ msgs τ).1 = σ) ∧
    ((GeminiModel.prepareRefs σ msgs τ).2.2.map
        (GeminiModel.prepareRefs σ msgs τ).2.1.mem =
      GeminiModel.convert (msgs.map σ.mem)) ∧
    (OpenAILikeModel.prepareRefs σ msgs = (σ, msgs)) := by
  obtain ⟨s1, s2, s3, s4⟩ :=
    Store.allocList_spec ((AnthropicModel.activeRefs σ msgs).map σ.mem) σ
  have hframe : ∀ i, i < σ.next →
      (AnthropicModel.prepareRefs σ msgs rf).1.mem i = σ.mem i := by
    intro i hi
    by_cases h : shouldPrefill rf
    · have hshape : (AnthropicModel.prepareRefs σ msgs rf).1 =
          ((σ.allocList ((AnthropicModel.activeRefs σ msgs).map σ.mem)).1.alloc
            prefillMessage).1 := by
        simp [AnthropicModel.prepareRefs, h]
      rw [hshape]
      have hlt : i <
          (σ.allocList ((AnthropicModel.activeRefs σ msgs).map σ.mem)).1.next :=
        lt_of_lt_of_le hi s1
      have halloc :
          (((σ.allocList ((AnthropicModel.activeRefs σ msgs).map σ.mem)).1.alloc
            prefillMessage).1).mem i =
          (σ.allocList ((AnthropicModel.activeRefs σ msgs).map σ.mem)).1.mem i :=
        if_neg (by omega)
      rw [halloc]
      exact s2 i hi
    · have hshape : (AnthropicModel.prepareRefs σ msgs rf).1 =
          (σ.allocList ((AnthropicModel.activeRefs σ msgs).map σ.mem)).1 := by
        simp [AnthropicModel.prepareRefs, h]
      rw [hshape]
      exact s2 i hi
  refine ⟨hframe, fun j _ hj => hframe j hj, ?_, rfl, ?_, rfl⟩
  · by_cases h : shouldPrefill rf
    · have hshape1 : (AnthropicModel.prepareRefs σ msgs rf).1 =
          ((σ.allocList ((AnthropicModel.activeRefs σ msgs).map σ.mem)).1.alloc
            prefillMessage).1 := by
        simp [AnthropicModel.prepareRefs, h]
      have hshape2 : (AnthropicModel.prepareRefs σ msgs rf).2 =
          (σ.allocList ((AnthropicModel.activeRefs σ msgs).map σ.mem)).2 ++
            [(σ.allocList ((AnthropicModel.activeRefs σ msgs).map σ.mem)).1.next] := by
        simp [AnthropicModel.prepareRefs, h, Store.alloc]
      rw [hshape1, hshape2, List.map_append]
      have hmap :
          ((σ.allocList ((AnthropicModel.activeRefs σ msgs).map σ.mem)).2).map
            (((σ.allocList ((AnthropicModel.activeRefs σ msgs).map σ.mem)).1.alloc
              prefillMessage).1).mem =
          ((σ.allocList ((AnthropicModel.activeRefs σ msgs).map σ.mem)).2).map
            ((σ.allocList ((AnthropicModel.activeRefs σ msgs).map σ.mem)).1).mem :=
        List.map_congr_left (fun j hj => if_neg (Nat.ne_of_lt (s3 j hj)))
      rw [hmap, s4, activeRefs_map]
      have hlast : ∀ vs : List Message,
          (((σ.allocList vs).1.alloc prefillMessage).1).mem
            ((σ.allocList vs).1.next) = prefillMessage :=
        fun vs => if_pos rfl
      simp [hlast, AnthropicModel.messagesToSend, h]
    · have hshape : AnthropicModel.prepareRefs σ msgs rf =
          σ.allocList ((AnthropicModel.activeRefs σ msgs).map σ.mem) := by
        simp [AnthropicModel.prepareRefs, h]
      rw [hshape, s4, activeRefs_map]
      simp [AnthropicModel.messagesToSend, h]
  · exact (Store.allocList_spec (GeminiModel.convert (msgs.map σ.mem)) τ).2.2.2

/-- Closed instance of C8: preparing a two-message conversation leaves both of
the caller's message objects untouched in the store. -/
theorem adapters_no_mutation_witness :
    (AnthropicModel.prepareRefs storeDemo [0, 1] none).1.mem 0 = storeDemo.mem 0 ∧
    (AnthropicModel.prepareRefs storeDemo [0, 1] none).1.mem 1 = storeDemo.mem 1 ∧
    (GeminiModel.prepareRefs storeDemo [0, 1] gstoreEmpty).1 = storeDemo := by
  refine ⟨?_, ?_, ?_⟩
  · exact (adapters_no_mutation storeDemo [0, 1] none gstoreEmpty).1 0 (by decide)
  · exact (adapters_no_mutation storeDemo [0, 1] none gstoreEmpty).1 1 (by decide)
  · exact (adapters_no_mutation storeDemo [0, 1] none gstoreEmpty).2.2.2.1

/-- C9: the empty conversation is handled totally by both message
transformations: the guarded leading-system check treats it as having no
system message, so the Claude request carries an empty system field and (at
the default response format) an empty sent array, and the Gemini transmitted
array is empty — no index error occurs. -/
theorem empty_conversation_total (mn : String) (temp : Rat) :
    systemExtract [] = ("", []) ∧
    (AnthropicModel.buildRequest mn [] temp none).system = "" ∧
    (AnthropicModel.buildRequest mn [] temp none).messages = [] ∧
    GeminiModel.convert [] = [] ∧
    (GeminiModel.buildRequest [] temp).contents = [] := by
  exact ⟨rfl, rfl, rfl, rfl, rfl⟩

/-- C10: every outbound request of every adapter carries the hard-coded
output-token ceiling 16384, and no call signature accepts a token-ceiling
parameter, so the field is invariant across all inputs. -/
theorem max_tokens_fixed (mn : String) (msgs : List Message) (temp : Rat)
    (rf : Option RespFormat) :
    (OpenAILikeModel.buildRequest mn msgs temp rf).max_completion_tokens = 16384 ∧
    (AnthropicModel.buildRequest mn msgs temp rf).max_tokens = 16384 ∧
    (GeminiModel.buildRequest msgs temp).generation_config.max_output_tokens
      = 16384 ∧
    MAX_TOKENS = 16384 ∧
    OpenAILikeModel.callParams.contains "max_completion_tokens" = false ∧
    OpenAILikeModel.callParams.contains "max_tokens" = false ∧
    AnthropicModel.callParams.contains "max_tokens" = false ∧
    GeminiModel.callParams.contains "max_output_tokens" = false := by
  exact ⟨rfl, rfl, rfl, rfl, rfl, rfl, rfl, rfl⟩

end ARTS
